import Mathlib

/-!
Verification of the calculator-session layer of pyDiSCaMB, a shallow
embedding of `src/DiscambStructureFactorCalculator.cpp` together with the
record type declared in `include/DiscambWrapper.hpp`.

The scattering Engine (DiSCaMB's `SfCalculator`) is an external
collaborator of this layer: its behaviour is modelled as a record of pure
functions (`SfCalculator` below) together with an explicitly threaded
engine state (`EngineState`: the anomalous-scattering vector set through
`setAnomalous`, and the structural-parameters convention).  The wrapper
code itself is translated statement by statement.  The source file begins
with `#undef NDEBUG` followed by `#include <cassert>`, so each `assert`
is always active; a failed assertion is modelled as an error value
carrying the asserted condition verbatim, returned together with the
state at the failure point.

Abstract type parameters (all defined outside this repository):
`A` stands for `discamb::AtomInCrystal`, `C` for `std::complex<double>`,
`D` for the engine-owned payload of `discamb::SfDerivativesAtHkl`, and
`T` for `discamb::TargetFunctionAtomicParamDerivatives`.
-/

/-- Reflection index triple, `discamb::Vector3i`. -/
structure Vector3i where
  x : Int
  y : Int
  z : Int
deriving DecidableEq, Repr

/-- Engine structural-parameters convention setting (spec section 6:
"Cartesian vs crystallographic axes"). -/
inductive ParamConvention where
  | cartesian
  | crystallographic
deriving DecidableEq, Repr

/-- Mutable state of the engine's calculator handle, as observed by this
layer: the anomalous-scattering terms pushed via `setAnomalous`, and the
structural-parameters convention. -/
structure EngineState (C : Type) where
  anomalous : List C
  convention : ParamConvention

/-- Pure behaviour of the external engine (`discamb::SfCalculator`).
Each field is one engine entry point used by the wrapper; the engine
writes its outputs at fixed index slots (spec section 5), so each output
slot is a function of the call's inputs and the slot position. -/
structure SfCalculator (A C D T : Type) where
  /-- Slot function of `calculateStructureFactors(atoms, hkl, sf, countAtomContribution)`:
  the structure-factor value written for one reflection. -/
  sfAt : List A → Vector3i → EngineState C → List Bool → C
  /-- The single-hkl overload `calculateStructureFactorsAndDerivatives(hkl, sf, derivs, countAtomContribution)`:
  derivative payload and structure factor for one reflection (this
  overload is not handed the atom list; the engine uses its own state). -/
  derivAt : List Int → EngineState C → List Bool → D × C
  /-- Slot function of the target-weighted overload
  `calculateStructureFactorsAndDerivatives(atoms, hkl, sf, dTargetDParam, dTargetDf, countAtomContribution)`:
  the per-atom record written at one atom slot. -/
  targetDerivAt : List A → List Vector3i → List C → EngineState C → List Bool → Nat → T

/-- The part of `discamb::Crystal` this layer reads: the ordered atom
list (`mCrystal.atoms`); cell and symmetry data are only passed through
to the engine and never inspected here. -/
structure Crystal (A : Type) where
  atoms : List A

/-- Failure of an always-active `assert`, carrying the asserted condition. -/
inductive DiscambError where
  | assertFail : String → DiscambError
deriving DecidableEq, Repr

/-- Session state of `DiscambStructureFactorCalculator`: the engine
behaviour plus engine state (in C++ the `SfCalculator*` member), the
crystal copy, the anomalous terms, and the active reflection list `hkl`. -/
structure DiscambStructureFactorCalculator (A C D T : Type) where
  mCalculator : SfCalculator A C D T
  engine : EngineState C
  mCrystal : Crystal A
  mAnomalous : List C
  hkl : List Vector3i

section Operations

variable {A C D T : Type}

/-- Engine contract for `setAnomalous`: replace the engine-held anomalous
terms, touching nothing else of the engine state. -/
def setAnomalous (e : EngineState C) (a : List C) : EngineState C :=
  { e with anomalous := a }

/-- `DiscambStructureFactorCalculator::update_calculator` (lines 113-117):
assert `mAnomalous.size() == mCrystal.atoms.size()`, then push the
anomalous terms into the engine. -/
def update_calculator (s : DiscambStructureFactorCalculator A C D T) :
    Except DiscambError Unit × DiscambStructureFactorCalculator A C D T :=
  if s.mAnomalous.length = s.mCrystal.atoms.length then
    (Except.ok (), { s with engine := setAnomalous s.engine s.mAnomalous })
  else
    (Except.error (DiscambError.assertFail "mAnomalous.size() == mCrystal.atoms.size()"), s)

/-- The session state after a successful resync: the engine's anomalous
vector equals `mAnomalous`, everything else unchanged. -/
def syncState (s : DiscambStructureFactorCalculator A C D T) :
    DiscambStructureFactorCalculator A C D T :=
  { s with engine := { s.engine with anomalous := s.mAnomalous } }

/-- The constructor (lines 24-37): member-initialize, assert
`mCrystal.atoms.size() > 0`, `mAnomalous.size() > 0`,
`mCrystal.atoms.size() == mAnomalous.size()`, then `update_calculator()`.
The `hkl` member starts default-constructed (empty); member
initialization itself has no observable effect, so the asserts are
checked directly on the initializing values. -/
def mkDiscambStructureFactorCalculator (calculator : SfCalculator A C D T)
    (engine0 : EngineState C) (crystal : Crystal A) (anomalous : List C) :
    Except DiscambError (DiscambStructureFactorCalculator A C D T) :=
  if 0 < crystal.atoms.length then
    if 0 < anomalous.length then
      if crystal.atoms.length = anomalous.length then
        match update_calculator
            { mCalculator := calculator, engine := engine0, mCrystal := crystal,
              mAnomalous := anomalous, hkl := [] } with
        | (Except.ok _, s2) => Except.ok s2
        | (Except.error e, _) => Except.error e
      else Except.error (DiscambError.assertFail "mCrystal.atoms.size() == mAnomalous.size()")
    else Except.error (DiscambError.assertFail "mAnomalous.size() > 0")
  else Except.error (DiscambError.assertFail "mCrystal.atoms.size() > 0")

/-- The structure-factor value `f_calc` obtains for one reflection: the
engine slot function applied to the session's atoms, the reflection, the
engine state, and `count_atom_contribution = vector<bool>(natoms, true)`. -/
def fCalcValue (s : DiscambStructureFactorCalculator A C D T) (v : Vector3i) : C :=
  s.mCalculator.sfAt s.mCrystal.atoms v s.engine
    (List.replicate s.mCrystal.atoms.length true)

/-- `DiscambStructureFactorCalculator::f_calc` (lines 39-46):
`update_calculator()`, size the output to `hkl.size()`, and let the
engine fill one structure factor per reflection slot. -/
def f_calc (s : DiscambStructureFactorCalculator A C D T) :
    Except DiscambError (List C) × DiscambStructureFactorCalculator A C D T :=
  match update_calculator s with
  | (Except.error e, s2) => (Except.error e, s2)
  | (Except.ok _, s2) => (Except.ok (s2.hkl.map (fun v => fCalcValue s2 v)), s2)

/-- Base part of the derivative record filled by the engine
(`discamb::SfDerivativesAtHkl`, defined outside this repository, hence an
abstract payload). -/
structure SfDerivativesAtHkl (D : Type) where
  payload : D

/-- The record of `include/DiscambWrapper.hpp` lines 25-33: it extends
`discamb::SfDerivativesAtHkl` with the reflection index, the structure
factor, and `fpDerivative`/`fdpDerivative`, the latter two with in-class
initializers `{0.0, 0.0}`.  The engine's single-hkl derivative call is
handed the record only through its base-class part, so it can never
write these two added fields. -/
structure FCalcDerivatives (C D : Type) extends SfDerivativesAtHkl D where
  hkl : List Int
  structure_factor : C
  fpDerivative : C
  fdpDerivative : C

variable {A C D T : Type}

/-- The record `d_f_calc_hkl_d_params` builds for one reflection after a
successful resync: default-construct (`fpDerivative = fdpDerivative = 0`),
set `hkl = {h, k, l}`, then let the engine fill the base payload and the
structure factor. -/
def d_f_calc_record [Zero C] (s : DiscambStructureFactorCalculator A C D T)
    (h k l : Int) : FCalcDerivatives C D :=
  let p := s.mCalculator.derivAt [h, k, l] s.engine
    (List.replicate s.mCrystal.atoms.length true)
  { payload := p.1, hkl := [h, k, l], structure_factor := p.2,
    fpDerivative := 0, fdpDerivative := 0 }

/-- `DiscambStructureFactorCalculator::d_f_calc_hkl_d_params` (lines 58-70):
`update_calculator()`, then one engine derivative call for the given
reflection. -/
def d_f_calc_hkl_d_params [Zero C] (s : DiscambStructureFactorCalculator A C D T)
    (h k l : Int) :
    Except DiscambError (FCalcDerivatives C D) × DiscambStructureFactorCalculator A C D T :=
  match update_calculator s with
  | (Except.error e, s2) => (Except.error e, s2)
  | (Except.ok _, s2) => (Except.ok (d_f_calc_record s2 h k l), s2)

/-- The loop body of `d_f_calc_d_params` (lines 52-54): one
`d_f_calc_hkl_d_params` call per reflection of the given list, threading
the session state and stopping at the first failed assertion. -/
def d_f_calc_list [Zero C] (s : DiscambStructureFactorCalculator A C D T) :
    List Vector3i →
    Except DiscambError (List (FCalcDerivatives C D)) × DiscambStructureFactorCalculator A C D T
  | [] => (Except.ok [], s)
  | v :: rest =>
    match d_f_calc_hkl_d_params s v.x v.y v.z with
    | (Except.error e, s2) => (Except.error e, s2)
    | (Except.ok r, s2) =>
      match d_f_calc_list s2 rest with
      | (Except.error e, s3) => (Except.error e, s3)
      | (Except.ok rs, s3) => (Except.ok (r :: rs), s3)

/-- `DiscambStructureFactorCalculator::d_f_calc_d_params` (lines 48-56):
size the output to `hkl.size()` and fill slot `i` from
`d_f_calc_hkl_d_params(hkl[i].x, hkl[i].y, hkl[i].z)`. -/
def d_f_calc_d_params [Zero C] (s : DiscambStructureFactorCalculator A C D T) :
    Except DiscambError (List (FCalcDerivatives C D)) × DiscambStructureFactorCalculator A C D T :=
  d_f_calc_list s s.hkl

/-- `DiscambStructureFactorCalculator::d_target_d_params` (lines 72-111):
`update_calculator()`, assert `hkl.size() == d_target_d_f_calc.size()`,
size the output to `mCrystal.atoms.size()`, and let the engine's
target-weighted overload fill one record per atom slot.  The block that
would temporarily switch the engine's parameters convention is commented
out (`TODO`) in the source, so the convention is never touched. -/
def d_target_d_params (s : DiscambStructureFactorCalculator A C D T)
    (d_target_d_f_calc : List C) :
    Except DiscambError (List T) × DiscambStructureFactorCalculator A C D T :=
  match update_calculator s with
  | (Except.error e, s2) => (Except.error e, s2)
  | (Except.ok _, s2) =>
    if s2.hkl.length = d_target_d_f_calc.length then
      (Except.ok ((List.range s2.mCrystal.atoms.length).map
        (fun i => s2.mCalculator.targetDerivAt s2.mCrystal.atoms s2.hkl
          d_target_d_f_calc s2.engine
          (List.replicate s2.mCrystal.atoms.length true) i)), s2)
    else
      (Except.error (DiscambError.assertFail "hkl.size() == d_target_d_f_calc.size()"), s2)

/-- The per-atom record `d_target_d_params` obtains for one atom slot:
the engine's target-weighted slot function applied to the session's
atoms, the active index list, the weight vector, the engine state,
`count_atom_contribution = vector<bool>(natoms, true)`, and the slot
position.  This is exactly the slot function mapped over the atom-slot
range inside `d_target_d_params`. -/
def dTargetDValue (s : DiscambStructureFactorCalculator A C D T)
    (d_target_d_f_calc : List C) (i : Nat) : T :=
  s.mCalculator.targetDerivAt s.mCrystal.atoms s.hkl d_target_d_f_calc s.engine
    (List.replicate s.mCrystal.atoms.length true) i

/-- Modelled from the spec: `set_indices` is declared in
`include/DiscambWrapper.hpp` but its definition (`src/DiscambWrapper.cpp`)
is not among the provided sources.  Spec section 4.4: "replace the active
ReflectionIndexSet; does not change Stale/Ready status"; section 4.2:
explicit indices pass through as given, order preserved. -/
def set_indices (s : DiscambStructureFactorCalculator A C D T)
    (indices : List Vector3i) : DiscambStructureFactorCalculator A C D T :=
  { s with hkl := indices }

/-- Modelled from the spec: `set_d_min` (definition in the missing
`src/DiscambWrapper.cpp`) replaces the active index set with the resolver
enumeration for the resolution limit (spec section 4.2, `resolve(d_min)`).
The enumeration depends on unit-cell data this layer never inspects, so
the resolver is abstracted as the function argument `resolve`; the
resolution limit (a C++ `double`) is modelled as a rational. -/
def set_d_min (resolve : Rat → List Vector3i)
    (s : DiscambStructureFactorCalculator A C D T) (d : Rat) :
    DiscambStructureFactorCalculator A C D T :=
  { s with hkl := resolve d }

/-- Modelled from the spec: the one-argument overload `f_calc(d_min)`
(declared in `include/DiscambWrapper.hpp` lines 40-42, definition in the
missing `src/DiscambWrapper.cpp`) is the "shorthand equivalent to
`set_d_min` then `f_calc()`" (spec section 4.4). -/
def f_calc_d_min (resolve : Rat → List Vector3i)
    (s : DiscambStructureFactorCalculator A C D T) (d : Rat) :
    Except DiscambError (List C) × DiscambStructureFactorCalculator A C D T :=
  f_calc (set_d_min resolve s d)

end Operations

/-- Concrete engine behaviour used to evaluate the development on a
closed session: every entry point returns a fixed value. -/
def egCalc : SfCalculator Unit Int Unit Unit :=
  { sfAt := fun _ _ _ _ => 0
    derivAt := fun _ _ _ => ((), 0)
    targetDerivAt := fun _ _ _ _ _ _ => () }

/-- Concrete engine state for the closed session. -/
def egEngine : EngineState Int :=
  { anomalous := [7], convention := ParamConvention.cartesian }

/-- Concrete one-atom crystal for the closed session. -/
def egCrystal : Crystal Unit :=
  { atoms := [()] }

/-- Concrete session: one atom, one anomalous term, engine in sync, no
active indices yet.  This is exactly the session the constructor
produces from `egCalc`, `egEngine`, `egCrystal` and `[7]`. -/
def egSession : DiscambStructureFactorCalculator Unit Int Unit Unit :=
  { mCalculator := egCalc, engine := egEngine, mCrystal := egCrystal,
    mAnomalous := [7], hkl := [] }

/-- The explicit index list of the spec's worked example:
`set_indices([(0,1,0),(2,3,1)])`. -/
def egIndices : List Vector3i :=
  [⟨0, 1, 0⟩, ⟨2, 3, 1⟩]

/-- The concrete session after `set_indices([(0,1,0),(2,3,1)])`. -/
def egSession2 : DiscambStructureFactorCalculator Unit Int Unit Unit :=
  set_indices egSession egIndices

section BasicLemmas

variable {A C D T : Type}

lemma update_calculator_ok {s : DiscambStructureFactorCalculator A C D T}
    (h : s.mAnomalous.length = s.mCrystal.atoms.length) :
    update_calculator s = (Except.ok (), syncState s) := by
  unfold update_calculator
  rw [if_pos h]
  rfl

lemma update_calculator_err {s : DiscambStructureFactorCalculator A C D T}
    (h : ¬ s.mAnomalous.length = s.mCrystal.atoms.length) :
    update_calculator s =
      (Except.error (DiscambError.assertFail "mAnomalous.size() == mCrystal.atoms.size()"), s) := by
  unfold update_calculator
  rw [if_neg h]

@[simp] lemma syncState_mCalculator (s : DiscambStructureFactorCalculator A C D T) :
    (syncState s).mCalculator = s.mCalculator := rfl

@[simp] lemma syncState_mCrystal (s : DiscambStructureFactorCalculator A C D T) :
    (syncState s).mCrystal = s.mCrystal := rfl

@[simp] lemma syncState_mAnomalous (s : DiscambStructureFactorCalculator A C D T) :
    (syncState s).mAnomalous = s.mAnomalous := rfl

@[simp] lemma syncState_hkl (s : DiscambStructureFactorCalculator A C D T) :
    (syncState s).hkl = s.hkl := rfl

@[simp] lemma syncState_engine_anomalous (s : DiscambStructureFactorCalculator A C D T) :
    (syncState s).engine.anomalous = s.mAnomalous := rfl

@[simp] lemma syncState_engine_convention (s : DiscambStructureFactorCalculator A C D T) :
    (syncState s).engine.convention = s.engine.convention := rfl

@[simp] lemma syncState_syncState (s : DiscambStructureFactorCalculator A C D T) :
    syncState (syncState s) = syncState s := rfl

lemma syncState_eq_self {s : DiscambStructureFactorCalculator A C D T}
    (h : s.engine.anomalous = s.mAnomalous) : syncState s = s := by
  obtain ⟨mc, ⟨ea, ec⟩, cr, anom, hk⟩ := s
  cases h
  rfl

lemma f_calc_ok {s : DiscambStructureFactorCalculator A C D T}
    (h : s.mAnomalous.length = s.mCrystal.atoms.length) :
    f_calc s = (Except.ok (s.hkl.map (fun v => fCalcValue (syncState s) v)), syncState s) := by
  unfold f_calc
  rw [update_calculator_ok h]
  rfl

lemma f_calc_err {s : DiscambStructureFactorCalculator A C D T}
    (h : ¬ s.mAnomalous.length = s.mCrystal.atoms.length) :
    f_calc s =
      (Except.error (DiscambError.assertFail "mAnomalous.size() == mCrystal.atoms.size()"), s) := by
  unfold f_calc
  rw [update_calculator_err h]

lemma d_f_calc_hkl_ok [Zero C] {s : DiscambStructureFactorCalculator A C D T}
    (hsize : s.mAnomalous.length = s.mCrystal.atoms.length) (h k l : Int) :
    d_f_calc_hkl_d_params s h k l =
      (Except.ok (d_f_calc_record (syncState s) h k l), syncState s) := by
  unfold d_f_calc_hkl_d_params
  rw [update_calculator_ok hsize]

lemma d_f_calc_list_synced [Zero C] (l : List Vector3i) :
    ∀ s : DiscambStructureFactorCalculator A C D T,
      s.engine.anomalous = s.mAnomalous →
      s.mAnomalous.length = s.mCrystal.atoms.length →
      d_f_calc_list s l =
        (Except.ok (l.map (fun v => d_f_calc_record s v.x v.y v.z)), s) := by
  induction l with
  | nil =>
    intro s _ _
    simp [d_f_calc_list]
  | cons v rest ih =>
    intro s hsync hsize
    have hss : syncState s = s := syncState_eq_self hsync
    simp [d_f_calc_list, d_f_calc_hkl_ok hsize, hss, ih s hsync hsize]

lemma d_f_calc_d_params_spec [Zero C] {s : DiscambStructureFactorCalculator A C D T}
    (hsize : s.mAnomalous.length = s.mCrystal.atoms.length) :
    (d_f_calc_d_params s).1 =
      Except.ok (s.hkl.map (fun v => d_f_calc_record (syncState s) v.x v.y v.z)) := by
  unfold d_f_calc_d_params
  cases hh : s.hkl with
  | nil => simp [d_f_calc_list]
  | cons v rest =>
    have hrest := d_f_calc_list_synced rest (syncState s) rfl hsize
    simp [d_f_calc_list, d_f_calc_hkl_ok hsize, hrest, syncState_syncState]

lemma mkDiscamb_ok {calculator : SfCalculator A C D T} {engine0 : EngineState C}
    {crystal : Crystal A} {anomalous : List C}
    {s : DiscambStructureFactorCalculator A C D T}
    (h : mkDiscambStructureFactorCalculator calculator engine0 crystal anomalous = Except.ok s) :
    s = syncState ⟨calculator, engine0, crystal, anomalous, []⟩ ∧
    0 < crystal.atoms.length ∧ crystal.atoms.length = anomalous.length := by
  unfold mkDiscambStructureFactorCalculator at h
  by_cases h1 : 0 < crystal.atoms.length
  · rw [if_pos h1] at h
    by_cases h2 : 0 < anomalous.length
    · rw [if_pos h2] at h
      by_cases h3 : crystal.atoms.length = anomalous.length
      · rw [if_pos h3] at h
        rw [update_calculator_ok h3.symm] at h
        have h4 : Except.ok (syncState ⟨calculator, engine0, crystal, anomalous, []⟩) =
            Except.ok s := h
        exact ⟨(Except.ok.inj h4).symm, h1, h3⟩
      · rw [if_neg h3] at h
        exact absurd h (by simp)
    · rw [if_neg h2] at h
      exact absurd h (by simp)
  · rw [if_neg h1] at h
    exact absurd h (by simp)

lemma mk_ok_synced {calculator : SfCalculator A C D T} {engine0 : EngineState C}
    {crystal : Crystal A} {anomalous : List C}
    {s : DiscambStructureFactorCalculator A C D T}
    (h : mkDiscambStructureFactorCalculator calculator engine0 crystal anomalous = Except.ok s) :
    s.engine.anomalous = s.mAnomalous := by
  obtain ⟨hs, -, -⟩ := mkDiscamb_ok h
  subst hs
  rfl

lemma f_calc_snd_synced {s : DiscambStructureFactorCalculator A C D T}
    (hsize : s.mAnomalous.length = s.mCrystal.atoms.length) :
    ((f_calc s).2).engine.anomalous = ((f_calc s).2).mAnomalous := by
  rw [f_calc_ok hsize]
  rfl

end BasicLemmas

section ClaimTheorems

variable {A C D T : Type}

/-- Claim C1: for every session whose engine anomalous state is in sync
with `mAnomalous` and whose size invariant holds (both are established by
the constructor and preserved by every operation), calling
`d_target_d_params` with a weight vector whose length differs from the
number of active reflection indices fails with the shape-mismatch
assertion `hkl.size() == d_target_d_f_calc.size()` and leaves the session
state and the engine state unchanged. -/
theorem d_target_d_params_shape_mismatch_error
    (s : DiscambStructureFactorCalculator A C D T) (w : List C)
    (hsync : s.engine.anomalous = s.mAnomalous)
    (hsize : s.mAnomalous.length = s.mCrystal.atoms.length)
    (hw : ¬ s.hkl.length = w.length) :
    d_target_d_params s w =
      (Except.error (DiscambError.assertFail "hkl.size() == d_target_d_f_calc.size()"), s) := by
  have hss : syncState s = s := syncState_eq_self hsync
  simp only [d_target_d_params, update_calculator_ok hsize, hss]
  rw [if_neg hw]

/-- Witness for C1: on the concrete constructed session with no active
indices, a one-element weight vector triggers exactly the shape-mismatch
error and the session is returned unchanged. -/
theorem d_target_d_params_shape_mismatch_error_witness :
    ¬ egSession.hkl.length = ([0] : List Int).length ∧
    d_target_d_params egSession [0] =
      (Except.error (DiscambError.assertFail "hkl.size() == d_target_d_f_calc.size()"),
       egSession) :=
  ⟨by decide, d_target_d_params_shape_mismatch_error egSession [0] rfl rfl (by decide)⟩

/-- Claim C2: for every session satisfying the constructor's size
invariant, `f_calc` succeeds and returns exactly one complex value per
active index, the value at position `i` being the engine's
structure-factor value for the `i`-th active index. -/
theorem f_calc_value_per_index
    (s : DiscambStructureFactorCalculator A C D T)
    (hsize : s.mAnomalous.length = s.mCrystal.atoms.length) :
    ∃ vs : List C, (f_calc s).1 = Except.ok vs ∧
      vs = s.hkl.map (fun v => fCalcValue (syncState s) v) ∧
      vs.length = s.hkl.length ∧
      ∀ i (hi : i < s.hkl.length),
        vs[i]? = some (fCalcValue (syncState s) (s.hkl.get ⟨i, hi⟩)) := by
  refine ⟨s.hkl.map (fun v => fCalcValue (syncState s) v), ?_, rfl, by simp, ?_⟩
  · rw [f_calc_ok hsize]
  · intro i hi
    simp [List.getElem?_map, List.getElem?_eq_getElem hi]

/-- Witness for C2: on the concrete session after
`set_indices([(0,1,0),(2,3,1)])`, `f_calc` returns exactly 2 values, in
index order. -/
theorem f_calc_value_per_index_witness :
    egSession2.mAnomalous.length = egSession2.mCrystal.atoms.length ∧
    ∃ vs : List Int, (f_calc egSession2).1 = Except.ok vs ∧
      vs = egSession2.hkl.map (fun v => fCalcValue (syncState egSession2) v) ∧
      vs.length = 2 ∧
      ∀ i (hi : i < egSession2.hkl.length),
        vs[i]? = some (fCalcValue (syncState egSession2) (egSession2.hkl.get ⟨i, hi⟩)) :=
  ⟨rfl, f_calc_value_per_index egSession2 rfl⟩

/-- Claim C3: two successive `f_calc` calls on the same session return
identical results, element for element (the second call runs on the state
the first call left behind).  This holds for every session, including
those violating the size invariant, where both calls fail identically. -/
theorem f_calc_deterministic (s : DiscambStructureFactorCalculator A C D T) :
    (f_calc (f_calc s).2).1 = (f_calc s).1 := by
  by_cases h : s.mAnomalous.length = s.mCrystal.atoms.length
  · have h2 : (syncState s).mAnomalous.length = (syncState s).mCrystal.atoms.length := h
    simp [f_calc_ok h, f_calc_ok h2, syncState_syncState]
  · simp [f_calc_err h]

/-- Claim C4: for every session satisfying the size invariant and a
weight vector of the same length as the active index list,
`d_target_d_params` succeeds and returns exactly one
`TargetFunctionAtomicParamDerivatives` record per atom, in atom order:
the record at position `i` is the engine's record for atom slot `i`. -/
theorem d_target_d_params_one_record_per_atom
    (s : DiscambStructureFactorCalculator A C D T) (w : List C)
    (hsize : s.mAnomalous.length = s.mCrystal.atoms.length)
    (hw : s.hkl.length = w.length) :
    ∃ out : List T, (d_target_d_params s w).1 = Except.ok out ∧
      out.length = s.mCrystal.atoms.length ∧
      ∀ i, i < s.mCrystal.atoms.length →
        out[i]? = some (dTargetDValue (syncState s) w i) := by
  have hw2 : (syncState s).hkl.length = w.length := hw
  refine ⟨(List.range (syncState s).mCrystal.atoms.length).map
      (fun i => dTargetDValue (syncState s) w i), ?_, by simp, ?_⟩
  · simp only [d_target_d_params, update_calculator_ok hsize]
    rw [if_pos hw2]
    rfl
  · intro i hi
    simp [List.getElem?_map, List.getElem?_range hi]

/-- Witness for C4: on the concrete one-atom session with no active
indices and the matching empty weight vector, `d_target_d_params`
returns exactly one record, and position 0 holds atom slot 0's record. -/
theorem d_target_d_params_one_record_per_atom_witness :
    egSession.mAnomalous.length = egSession.mCrystal.atoms.length ∧
    egSession.hkl.length = ([] : List Int).length ∧
    ∃ out : List Unit, (d_target_d_params egSession ([] : List Int)).1 = Except.ok out ∧
      out.length = 1 ∧
      ∀ i, i < egSession.mCrystal.atoms.length →
        out[i]? = some (dTargetDValue (syncState egSession) ([] : List Int) i) :=
  ⟨rfl, rfl, d_target_d_params_one_record_per_atom egSession [] rfl rfl⟩

/-- Claim C5: `d_target_d_params` leaves the engine's
structural-parameters convention unchanged, on every path (the block
that would temporarily switch it is commented out in the source, so the
setting is never touched, hence trivially equal to its prior value when
the call returns). -/
theorem d_target_d_params_preserves_convention
    (s : DiscambStructureFactorCalculator A C D T) (w : List C) :
    ((d_target_d_params s w).2).engine.convention = s.engine.convention := by
  by_cases h : s.mAnomalous.length = s.mCrystal.atoms.length
  · simp only [d_target_d_params, update_calculator_ok h]
    by_cases h2 : (syncState s).hkl.length = w.length
    · rw [if_pos h2]
      rfl
    · rw [if_neg h2]
      rfl
  · simp [d_target_d_params, update_calculator_err h]

/-- Claim C6: for every session satisfying the size invariant,
`d_f_calc_d_params` succeeds and returns exactly one `FCalcDerivatives`
record per active index, the record at position `i` being the one
computed for the `i`-th active index. -/
theorem d_f_calc_d_params_one_per_index [Zero C]
    (s : DiscambStructureFactorCalculator A C D T)
    (hsize : s.mAnomalous.length = s.mCrystal.atoms.length) :
    ∃ out : List (FCalcDerivatives C D), (d_f_calc_d_params s).1 = Except.ok out ∧
      out.length = s.hkl.length ∧
      ∀ i (hi : i < s.hkl.length),
        out[i]? = some (d_f_calc_record (syncState s)
          (s.hkl.get ⟨i, hi⟩).x (s.hkl.get ⟨i, hi⟩).y (s.hkl.get ⟨i, hi⟩).z) := by
  refine ⟨s.hkl.map (fun v => d_f_calc_record (syncState s) v.x v.y v.z),
    d_f_calc_d_params_spec hsize, by simp, ?_⟩
  intro i hi
  simp [List.getElem?_map, List.getElem?_eq_getElem hi]

/-- Witness for C6: on the concrete session with two active indices,
`d_f_calc_d_params` returns exactly 2 records, in index order. -/
theorem d_f_calc_d_params_one_per_index_witness :
    egSession2.mAnomalous.length = egSession2.mCrystal.atoms.length ∧
    ∃ out : List (FCalcDerivatives Int Unit),
      (d_f_calc_d_params egSession2).1 = Except.ok out ∧
      out.length = 2 ∧
      ∀ i (hi : i < egSession2.hkl.length),
        out[i]? = some (d_f_calc_record (syncState egSession2)
          (egSession2.hkl.get ⟨i, hi⟩).x (egSession2.hkl.get ⟨i, hi⟩).y
          (egSession2.hkl.get ⟨i, hi⟩).z) :=
  ⟨rfl, d_f_calc_d_params_one_per_index egSession2 rfl⟩

/-- Claim C7: the one-argument overload `f_calc(d_min)` is an exact
shorthand for `set_d_min(d)` followed by `f_calc()` on the same session,
for every resolver, session, and resolution limit. -/
theorem f_calc_d_min_shorthand (resolve : Rat → List Vector3i)
    (s : DiscambStructureFactorCalculator A C D T) (d : Rat) :
    f_calc_d_min resolve s d = f_calc (set_d_min resolve s d) := rfl

/-- Claim C8: the Stale-to-Ready resync (`update_calculator`) is
idempotent: performing it twice in succession yields exactly the result
and state of performing it once, on every session (on the failing path
the state is unchanged, so the second attempt fails identically). -/
theorem update_calculator_idempotent (s : DiscambStructureFactorCalculator A C D T) :
    update_calculator (update_calculator s).2 = update_calculator s := by
  by_cases h : s.mAnomalous.length = s.mCrystal.atoms.length
  · have h2 : (syncState s).mAnomalous.length = (syncState s).mCrystal.atoms.length := h
    simp [update_calculator_ok h, update_calculator_ok h2, syncState_syncState]
  · simp [update_calculator_err h]

/-- Claim C9: a successfully constructed session satisfies
`atoms.size() == anomalous.size() > 0`; the equality is re-checked by
every resync (a resync reports success only when it holds); and
construction with zero atoms or mismatched list lengths fails an
always-active assertion. -/
theorem mk_establishes_size_invariant
    (calculator : SfCalculator A C D T) (engine0 : EngineState C)
    (crystal : Crystal A) (anomalous : List C)
    (s : DiscambStructureFactorCalculator A C D T)
    (h : mkDiscambStructureFactorCalculator calculator engine0 crystal anomalous = Except.ok s) :
    0 < s.mCrystal.atoms.length ∧
    s.mCrystal.atoms.length = s.mAnomalous.length ∧
    (∀ t : DiscambStructureFactorCalculator A C D T,
      (update_calculator t).1 = Except.ok () →
      t.mAnomalous.length = t.mCrystal.atoms.length) ∧
    (∀ (crystal2 : Crystal A) (anomalous2 : List C),
      crystal2.atoms.length = 0 ∨ ¬ crystal2.atoms.length = anomalous2.length →
      ∃ e, mkDiscambStructureFactorCalculator calculator engine0 crystal2 anomalous2 =
        Except.error e) := by
  obtain ⟨hs, h1, h3⟩ := mkDiscamb_ok h
  subst hs
  refine ⟨by simpa using h1, by simpa using h3, ?_, ?_⟩
  · intro t ht
    by_cases hts : t.mAnomalous.length = t.mCrystal.atoms.length
    · exact hts
    · rw [update_calculator_err hts] at ht
      exact absurd ht (by simp)
  · intro crystal2 anomalous2 hbad
    unfold mkDiscambStructureFactorCalculator
    by_cases hc1 : 0 < crystal2.atoms.length
    · rw [if_pos hc1]
      have hne : ¬ crystal2.atoms.length = anomalous2.length := by
        rcases hbad with hz | hne
        · omega
        · exact hne
      by_cases hc2 : 0 < anomalous2.length
      · rw [if_pos hc2, if_neg hne]
        exact ⟨_, rfl⟩
      · rw [if_neg hc2]
        exact ⟨_, rfl⟩
    · rw [if_neg hc1]
      exact ⟨_, rfl⟩

/-- Witness for C9: the concrete session is exactly what the constructor
returns on the one-atom crystal with one anomalous term, and the
invariant facts hold for it. -/
theorem mk_establishes_size_invariant_witness :
    mkDiscambStructureFactorCalculator egCalc egEngine egCrystal [7] = Except.ok egSession ∧
    (0 < egSession.mCrystal.atoms.length ∧
     egSession.mCrystal.atoms.length = egSession.mAnomalous.length ∧
     (∀ t : DiscambStructureFactorCalculator Unit Int Unit Unit,
       (update_calculator t).1 = Except.ok () →
       t.mAnomalous.length = t.mCrystal.atoms.length) ∧
     (∀ (crystal2 : Crystal Unit) (anomalous2 : List Int),
       crystal2.atoms.length = 0 ∨ ¬ crystal2.atoms.length = anomalous2.length →
       ∃ e, mkDiscambStructureFactorCalculator egCalc egEngine crystal2 anomalous2 =
         Except.error e)) :=
  ⟨rfl, mk_establishes_size_invariant egCalc egEngine egCrystal [7] egSession rfl⟩

/-- Claim C10: for every session satisfying the size invariant and every
position `i` below the number of active indices, the record
`d_f_calc_d_params` returns at position `i` carries an `hkl` field equal
to the `i`-th active reflection index, and its `fpDerivative` and
`fdpDerivative` fields are the zero-initialized values, untouched by the
engine call (which only sees the record's base-class part). -/
theorem d_f_calc_record_self_describing [Zero C]
    (s : DiscambStructureFactorCalculator A C D T)
    (hsize : s.mAnomalous.length = s.mCrystal.atoms.length)
    (i : Nat) (hi : i < s.hkl.length) :
    ∃ out : List (FCalcDerivatives C D), (d_f_calc_d_params s).1 = Except.ok out ∧
      ∃ r, out[i]? = some r ∧
        r.hkl = [(s.hkl.get ⟨i, hi⟩).x, (s.hkl.get ⟨i, hi⟩).y, (s.hkl.get ⟨i, hi⟩).z] ∧
        r.fpDerivative = 0 ∧ r.fdpDerivative = 0 := by
  refine ⟨s.hkl.map (fun v => d_f_calc_record (syncState s) v.x v.y v.z),
    d_f_calc_d_params_spec hsize,
    d_f_calc_record (syncState s) (s.hkl.get ⟨i, hi⟩).x (s.hkl.get ⟨i, hi⟩).y
      (s.hkl.get ⟨i, hi⟩).z, ?_, rfl, rfl, rfl⟩
  simp [List.getElem?_map, List.getElem?_eq_getElem hi]

/-- Witness for C10: on the concrete session with active indices
`[(0,1,0),(2,3,1)]`, the first returned record carries `hkl = [0,1,0]`
and zero `fpDerivative`/`fdpDerivative`. -/
theorem d_f_calc_record_self_describing_witness :
    egSession2.mAnomalous.length = egSession2.mCrystal.atoms.length ∧
    0 < egSession2.hkl.length ∧
    ∃ out : List (FCalcDerivatives Int Unit),
      (d_f_calc_d_params egSession2).1 = Except.ok out ∧
      ∃ r, out[0]? = some r ∧
        r.hkl = [0, 1, 0] ∧ r.fpDerivative = 0 ∧ r.fdpDerivative = 0 :=
  ⟨rfl, by decide, d_f_calc_record_self_describing egSession2 rfl 0 (by decide)⟩

end ClaimTheorems
